import Mathlib

/-!
Shallow embedding of `src/WrappedClient.ts` (RSA-Bots/TS-Bot-Template): the
command registries, permission evaluation, message/interaction dispatch, and
the registration facade.  JavaScript objects indexed by strings are modelled
as association lists; JavaScript `undefined` fields are `Option.none`;
callbacks are identified by opaque numeric tokens so that theorems can state
which callback an invocation reaches.  A thrown JavaScript runtime error
(such as a TypeError from reading a property of `undefined`) is modelled by
`Except.error`.
-/

set_option autoImplicit false

/-- Modelled from the spec: the permission rule set carried by a command
(`src/command/...` files absent from `src/`).  Each component is optional,
matching the truthiness checks `if (flags ...)`, `if (!allowed && !denied)`
in `WrappedClient.login`; when present it is a set of strings, used only
through membership (`.has`). -/
structure Permissions where
  flags : Option (List String)
  allowed : Option (List String)
  denied : Option (List String)
deriving DecidableEq

/-- The fields of `message.member` that the messageCreate handler reads:
`author.user.bot`, `author.permissions.toArray()`, and the ids of
`author.roles.cache`. -/
structure Author where
  isBot : Bool
  perms : List String
  roles : List String
deriving DecidableEq

/-- `flags && author.permissions.toArray().some(perm => flags.has(perm))`
(line 73 of `WrappedClient.ts`): false when the flag set is absent. -/
def flagsMatch (author : Author) (permissions : Permissions) : Bool :=
  match permissions.flags with
  | some flags => author.perms.any (fun perm => flags.contains perm)
  | none => false

/-- `denied && author.roles.cache.some(role => denied.has(role.id))`
(line 85 of `WrappedClient.ts`). -/
def deniedMatch (author : Author) (permissions : Permissions) : Bool :=
  match permissions.denied with
  | some denied => author.roles.any (fun role => denied.contains role)
  | none => false

/-- `allowed && author.roles.cache.some(role => allowed.has(role.id))`
(line 86 of `WrappedClient.ts`). -/
def allowedMatch (author : Author) (permissions : Permissions) : Bool :=
  match permissions.allowed with
  | some allowed => author.roles.any (fun role => allowed.contains role)
  | none => false

/-- The permission evaluation chain of lines 72-91 of `WrappedClient.ts`,
as run once `permissions` is known to be attached: flag match allows;
otherwise both lists absent allows; otherwise a denied-role match denies;
otherwise an allowed-role match allows; otherwise the fall-through
`return` denies. -/
def permissionAllows (author : Author) (permissions : Permissions) : Bool :=
  if flagsMatch author permissions then true
  else if permissions.allowed.isNone && permissions.denied.isNone then true
  else if deniedMatch author permissions then false
  else if allowedMatch author permissions then true
  else false

/-- Modelled from the spec: a legacy text command
(`src/command/MessageCommand.ts` absent from `src/`): identifier, optional
permission rule set, optional callback (`getCallback()` may return
`undefined`). -/
structure MessageCommand where
  name : String
  permissions : Option Permissions
  callback : Option Nat
deriving DecidableEq

/-- Interaction-command kind tag: `SlashCommand`, `ContextMenuCommand`,
`ButtonCommand`, `SelectMenuCommand` (the four classes of the
`commands` registry). -/
inductive CommandKind where
  | slash
  | contextMenu
  | button
  | selectMenu
deriving DecidableEq

/-- Modelled from the spec: a structured interaction command
(`src/command/...` classes absent from `src/`): identifier (command name or
custom element id), kind, optional guild scope (`getGuildId()`), opaque
declarative data (`getData()`), optional permission rule set, optional
callback. -/
structure InteractionCommand where
  name : String
  kind : CommandKind
  guildId : Option String
  data : Nat
  permissions : Option Permissions
  callback : Option Nat
deriving DecidableEq

/-- The instance fields of `WrappedClient`: the configured invocation
marker (TS field called the p-r-e-f-i-x string, default `"!"`; renamed
`pfx` here), and the two registries. -/
structure RouterState where
  pfx : String
  messageCommands : List (String × MessageCommand)
  commands : List (String × InteractionCommand)
deriving DecidableEq

/-- `setPrefix` of `WrappedClient.ts` (lines 32-34). -/
def setPfx (s : RouterState) (p : String) : RouterState :=
  { s with pfx := p }

/-- JavaScript `str.split(" ")` on the character list: splitting on every
occurrence of the separator, keeping empty pieces, and yielding `[""]` for
the empty string.  (Structurally recursive so that concrete dispatches
evaluate; `String.splitOn` has the same behaviour but is defined by
well-founded recursion.) -/
def jsSplitChars (cs : List Char) : List (List Char) :=
  match cs with
  | [] => [[]]
  | c :: rest =>
    if c = ' ' then [] :: jsSplitChars rest
    else
      match jsSplitChars rest with
      | w :: ws => (c :: w) :: ws
      | [] => [[c]]

/-- JavaScript `message.content.split(" ")` (line 52 of
`WrappedClient.ts`). -/
def jsSplit (s : String) : List String :=
  (jsSplitChars s.data).map String.mk

/-- JavaScript `s.startsWith(p)` on character lists. -/
def jsStartsWithChars : List Char → List Char → Bool
  | _, [] => true
  | [], _ :: _ => false
  | c :: cs, p :: ps => c = p && jsStartsWithChars cs ps

/-- JavaScript `command.startsWith(this.prefix)` (line 55 of
`WrappedClient.ts`). -/
def jsStartsWith (s p : String) : Bool :=
  jsStartsWithChars s.data p.data

/-- JavaScript `command.substring(n)`: the characters from index `n` on. -/
def jsSubstringFrom (s : String) (n : Nat) : String :=
  String.mk (s.data.drop n)

/-- JavaScript `str.length`. -/
def jsLength (s : String) : Nat :=
  s.data.length

/-- What a dispatched text command invocation observes: which callback ran,
with the original message event and the argument tokens it received. -/
inductive MessageResult where
  | invoked (cb : Nat) (content : String) (member : Option Author) (args : List String)
deriving DecidableEq

/-- The parts of a `messageCreate` event the handler reads:
`message.content` and `message.member`. -/
structure MessageEvent where
  content : String
  member : Option Author
deriving DecidableEq

/-- The `messageCreate` handler of `WrappedClient.login` (lines 50-95),
translated branch by branch.  The router state is threaded through so that
frame properties are statements, not definitional accidents. -/
def handleMessage (s : RouterState) (message : MessageEvent) :
    RouterState × Option MessageResult :=
  match jsSplit message.content with
  | [] => (s, none)
  | command :: args =>
    if !command.data.isEmpty && jsStartsWith command s.pfx then
      match s.messageCommands.lookup (jsSubstringFrom command (jsLength s.pfx)) with
      | none => (s, none)
      | some commandData =>
        match message.member with
        | none => (s, none)
        | some author =>
          if author.isBot then (s, none)
          else
            match commandData.callback with
            | none => (s, none)
            | some cb =>
              match commandData.permissions with
              | none => (s, some (.invoked cb message.content message.member args))
              | some permissions =>
                if flagsMatch author permissions then
                  (s, some (.invoked cb message.content message.member args))
                else if permissions.allowed.isNone && permissions.denied.isNone then
                  (s, some (.invoked cb message.content message.member args))
                else if deniedMatch author permissions then (s, none)
                else if allowedMatch author permissions then
                  (s, some (.invoked cb message.content message.member args))
                else (s, none)
    else (s, none)

/-- `interaction.targetType` of a context-menu interaction: `"USER"` or
`"MESSAGE"`. -/
inductive TargetType where
  | user
  | message
deriving DecidableEq

/-- The part of `interaction.guild` the handler reads: `members.cache`,
as a map from member id to the member's `user` object (opaque token). -/
structure Guild where
  members : List (String × Nat)
deriving DecidableEq

/-- The part of `interaction.channel` the handler reads: `messages.cache`,
as a map from message id to the cached message (opaque token). -/
structure Channel where
  messages : List (String × Nat)
deriving DecidableEq

/-- The resolved context-menu target: `member.user` or a cached message. -/
inductive Target where
  | user (u : Nat)
  | message (m : Nat)
deriving DecidableEq

/-- An incoming `interactionCreate` event, pre-classified by the platform
into exactly one of the four mutually exclusive kinds (`isCommand`,
`isButton`, `isContextMenu`, `isSelectMenu`), carrying the fields each
branch of the handler reads. -/
inductive Interaction where
  | command (commandName : String) (options : List Nat)
  | button (customId : String)
  | contextMenu (commandName : String) (guild : Option Guild)
      (channel : Option Channel) (targetType : TargetType) (targetId : String)
  | selectMenu (customId : String)
deriving DecidableEq

/-- A JavaScript runtime error escaping the handler, such as the TypeError
raised by reading `.callback` of `undefined`. -/
inductive JsError where
  | typeError
deriving DecidableEq

/-- What a dispatched interaction invocation observes. -/
inductive InteractionResult where
  | slashInvoked (cb : Nat) (options : List Nat)
  | buttonInvoked (cb : Nat)
  | contextMenuInvoked (cb : Nat) (target : Option Target)
  | selectMenuInvoked (cb : Nat)
deriving DecidableEq

/-- Target resolution of the context-menu branch (lines 116-132 of
`WrappedClient.ts`): `target` starts `undefined`; only when the guild is
present does the switch on `targetType` run; a `USER` target is the cached
member's `user`; a `MESSAGE` target is looked up in the channel's cached
messages when the channel is present. -/
def resolveTarget (guild : Option Guild) (channel : Option Channel)
    (targetType : TargetType) (targetId : String) : Option Target :=
  match guild with
  | none => none
  | some g =>
    match targetType with
    | .user =>
      match g.members.lookup targetId with
      | some member => some (.user member)
      | none => none
    | .message =>
      match channel with
      | none => none
      | some ch =>
        match ch.messages.lookup targetId with
        | some m => some (.message m)
        | none => none

/-- The `interactionCreate` handler of `WrappedClient.login` (lines
97-144).  Each branch evaluates `this.commands[id].callback`: when the
registry has no entry for the id, the lookup yields `undefined` and the
property read throws a TypeError (`Except.error`); when the entry exists
but has no callback, the `if (callback)` guard makes the dispatch a no-op;
otherwise the callback is invoked with the branch's arguments. -/
def handleInteraction (s : RouterState) (interaction : Interaction) :
    RouterState × Except JsError (Option InteractionResult) :=
  match interaction with
  | .command commandName options =>
    match s.commands.lookup commandName with
    | none => (s, .error .typeError)
    | some cmd =>
      match cmd.callback with
      | none => (s, .ok none)
      | some cb => (s, .ok (some (.slashInvoked cb options)))
  | .button customId =>
    match s.commands.lookup customId with
    | none => (s, .error .typeError)
    | some cmd =>
      match cmd.callback with
      | none => (s, .ok none)
      | some cb => (s, .ok (some (.buttonInvoked cb)))
  | .contextMenu commandName guild channel targetType targetId =>
    match s.commands.lookup commandName with
    | none => (s, .error .typeError)
    | some cmd =>
      match cmd.callback with
      | none => (s, .ok none)
      | some cb =>
        (s, .ok (some (.contextMenuInvoked cb
          (resolveTarget guild channel targetType targetId))))
  | .selectMenu customId =>
    match s.commands.lookup customId with
    | none => (s, .error .typeError)
    | some cmd =>
      match cmd.callback with
      | none => (s, .ok none)
      | some cb => (s, .ok (some (.selectMenuInvoked cb)))

/-- An entry of the pending outbound payload set. -/
inductive Payload where
  | guildPayload (guildId : String) (data : Nat) (permissions : Option Permissions)
  | globalPayload (data : Nat)
deriving DecidableEq

/-- Modelled from the spec: `Payload.addGuildPayload` (`src/Payload.ts`
absent from `src/`) — the Pending Outbound Payload Set accumulates a
per-guild structured-command definition together with its permission rule
set. -/
def addGuildPayload (payloads : List Payload) (guildId : String) (data : Nat)
    (permissions : Option Permissions) : List Payload :=
  payloads ++ [.guildPayload guildId data permissions]

/-- Modelled from the spec: `Payload.addGlobalPayload` (`src/Payload.ts`
absent from `src/`) — the Pending Outbound Payload Set accumulates a
globally scoped structured-command definition. -/
def addGlobalPayload (payloads : List Payload) (data : Nat) : List Payload :=
  payloads ++ [.globalPayload data]

/-- The wrapped client's state as the registration facade sees it: the
router fields plus the payload sink owned by the `Payload` module. -/
structure ClientState where
  router : RouterState
  payloads : List Payload
deriving DecidableEq

/-- `registerMessageCommand` of `WrappedClient.ts` (lines 160-172):
reject a duplicate name, reject a missing callback, otherwise insert. -/
def registerMessageCommand (s : RouterState) (command : MessageCommand) :
    RouterState × Bool :=
  match s.messageCommands.lookup command.name with
  | some _ => (s, false)
  | none =>
    match command.callback with
    | none => (s, false)
    | some _ =>
      ({ s with messageCommands := s.messageCommands ++ [(command.name, command)] },
        true)

/-- `registerCommandObject` of `WrappedClient.ts` (lines 174-197): reject a
duplicate name, reject a missing callback; otherwise insert into the
`commands` registry, and then — only for slash and context-menu commands —
forward one payload: guild-scoped when `getGuildId()` is set, global
otherwise. -/
def registerCommandObject (cs : ClientState) (command : InteractionCommand) :
    ClientState × Bool :=
  match cs.router.commands.lookup command.name with
  | some _ => (cs, false)
  | none =>
    match command.callback with
    | none => (cs, false)
    | some _ =>
      let inserted : ClientState :=
        { cs with router :=
            { cs.router with
                commands := cs.router.commands ++ [(command.name, command)] } }
      match command.kind with
      | .slash | .contextMenu =>
        match command.guildId with
        | some guildId =>
          ({ inserted with payloads :=
              addGuildPayload inserted.payloads guildId command.data command.permissions },
            true)
        | none =>
          ({ inserted with payloads := addGlobalPayload inserted.payloads command.data },
            true)
      | .button | .selectMenu => (inserted, true)

/-- Modelled from the spec: a client event subscription
(`src/ClientEvent.ts` absent from `src/`): event name, a once flag, and an
optional callback set by `setCallback`. -/
structure ClientEvent where
  name : String
  once : Bool
  callback : Option Nat
deriving DecidableEq

/-- A recorded subscription on the underlying client: event name, once
flag, callback token. -/
abbrev Subscription := String × Bool × Nat

/-- `registerEvent` of `WrappedClient.ts` (lines 147-158): when a callback
is attached, subscribe it (`once` or `on`) on the underlying client; in
every case the function falls through to `return false`. -/
def registerEvent (subs : List Subscription) (event : ClientEvent) :
    List Subscription × Bool :=
  match event.callback with
  | some cb =>
    if event.once then (subs ++ [(event.name, true, cb)], false)
    else (subs ++ [(event.name, false, cb)], false)
  | none => (subs, false)

/-- C1: a structured interaction whose id is not in the `commands` registry
does not dispatch silently — the handler evaluates
`this.commands[id].callback` on an `undefined` lookup result and raises a
TypeError.  Evaluated here at the failing input: a button press with custom
id `"missing"` against an empty registry. -/
theorem routing_miss_raises_type_error :
    handleInteraction ⟨"!", [], []⟩ (Interaction.button "missing") =
      (⟨"!", [], []⟩, Except.error JsError.typeError) := by
  rfl

/-- C2 counterexample: a rule set with the non-empty flag set `{F}` against
an actor holding no listed flag evaluates to allow (through the allow list
`{R}`), where the claim as stated demands deny with the lists never
consulted. -/
theorem flags_alone_counterexample :
    permissionAllows ⟨false, [], ["R"]⟩ ⟨some ["F"], some ["R"], none⟩ = true ∧
    flagsMatch ⟨false, [], ["R"]⟩ ⟨some ["F"], some ["R"], none⟩ = false := by
  decide

/-- C2 amended: when the actor holds at least one listed flag the outcome
is allow, irrespective of the allow/deny lists; when the actor holds none
of the listed flags, evaluation falls through and behaves exactly as if no
flag set were present, so the allow/deny lists (or their absence) decide. -/
theorem flags_decide_on_match (author : Author) (fl : List String)
    (al de : Option (List String)) :
    (author.perms.any (fun perm => fl.contains perm) = true →
      permissionAllows author ⟨some fl, al, de⟩ = true) ∧
    (author.perms.any (fun perm => fl.contains perm) = false →
      permissionAllows author ⟨some fl, al, de⟩ =
        permissionAllows author ⟨none, al, de⟩) := by
  have hfl : flagsMatch author ⟨some fl, al, de⟩ =
      (author.perms.any fun perm => fl.contains perm) := rfl
  have hfn : flagsMatch author ⟨none, al, de⟩ = false := rfl
  constructor
  · intro h
    unfold permissionAllows
    rw [hfl, h]
    rfl
  · intro h
    unfold permissionAllows
    rw [hfl, h, hfn]
    rfl

/-- C2 witness: a concrete actor holding flag `"F"` passes a rule set whose
flag set is `{F}` even though both lists are present and unmatched. -/
theorem flags_decide_on_match_witness :
    permissionAllows ⟨false, ["F"], []⟩ ⟨some ["F"], some [], some []⟩ = true :=
  (flags_decide_on_match ⟨false, ["F"], []⟩ ["F"] (some []) (some [])).1 (by decide)

/-- C3 counterexample: a rule set that is present with an empty flag set,
empty allow list and empty deny list evaluates to deny for a concrete
actor — every branch of the chain falls through to the final `return` —
where the claim as stated demands allow. -/
theorem empty_ruleset_counterexample :
    permissionAllows ⟨false, ["P"], ["R"]⟩ ⟨some [], some [], some []⟩ = false := by
  decide

/-- C3 amended: a rule set all of whose components are absent (`undefined`
flag set, allow list and deny list — the only shape the code treats as
unrestricted) evaluates to allow for every actor. -/
theorem absent_ruleset_allows (author : Author) :
    permissionAllows author ⟨none, none, none⟩ = true := by
  simp [permissionAllows, flagsMatch]

/-- C4: when the flag check does not decide the outcome, a deny list
containing a role the actor holds forces deny, whatever the allow list
contains — the deny check at line 85 runs before the allow check at
line 86. -/
theorem deny_precedence (author : Author) (permissions : Permissions)
    (d : List String) (r : String)
    (hf : flagsMatch author permissions = false)
    (hd : permissions.denied = some d)
    (hr : author.roles.contains r = true)
    (hrd : d.contains r = true) :
    permissionAllows author permissions = false := by
  have hdm : deniedMatch author permissions = true := by
    simp [deniedMatch, hd, List.any_eq_true]
    exact ⟨r, by simpa using hr, by simpa using hrd⟩
  simp [permissionAllows, hf, hdm, hd]

/-- Looking up a freshly appended key: when a key is absent from an
association list, appending a binding for it at the end makes the lookup
find that binding. -/
theorem lookup_append_not_found {β : Type} (l : List (String × β)) (n : String)
    (d : β) (h : l.lookup n = none) : (l ++ [(n, d)]).lookup n = some d := by
  induction l with
  | nil => simp [List.lookup]
  | cons p tl ih =>
    obtain ⟨k, v⟩ := p
    simp only [List.cons_append, List.lookup] at h ⊢
    cases hk : (n == k) with
    | true => rw [hk] at h; exact Option.noConfusion h
    | false => rw [hk] at h; exact ih h

/-- C5: in each namespace, registering an identifier that is already
present returns false and leaves the whole state unchanged (so the first
definition stays active), and registering a definition with no callback is
rejected the same way. -/
theorem duplicate_registration_rejected :
    (∀ (s : RouterState) (c1 c2 : MessageCommand),
      s.messageCommands.lookup c2.name = some c1 →
        registerMessageCommand s c2 = (s, false)) ∧
    (∀ (s : RouterState) (c : MessageCommand), c.callback = none →
      registerMessageCommand s c = (s, false)) ∧
    (∀ (cs : ClientState) (d1 d2 : InteractionCommand),
      cs.router.commands.lookup d2.name = some d1 →
        registerCommandObject cs d2 = (cs, false)) ∧
    (∀ (cs : ClientState) (d : InteractionCommand), d.callback = none →
      registerCommandObject cs d = (cs, false)) := by
  refine ⟨?_, ?_, ?_, ?_⟩
  · intro s c1 c2 h
    unfold registerMessageCommand
    rw [h]
  · intro s c h
    unfold registerMessageCommand
    cases hl : s.messageCommands.lookup c.name with
    | some v => rfl
    | none => rw [h]
  · intro cs d1 d2 h
    unfold registerCommandObject
    rw [h]
  · intro cs d h
    unfold registerCommandObject
    cases hl : cs.router.commands.lookup d.name with
    | some v => rfl
    | none => rw [h]

/-- C5 witness: a second `"ping"` text command is rejected with the state,
and hence the first definition, unchanged. -/
theorem duplicate_registration_rejected_witness :
    registerMessageCommand ⟨"!", [("ping", ⟨"ping", none, some 1⟩)], []⟩
        ⟨"ping", none, some 2⟩ =
      (⟨"!", [("ping", ⟨"ping", none, some 1⟩)], []⟩, false) :=
  duplicate_registration_rejected.1 ⟨"!", [("ping", ⟨"ping", none, some 1⟩)], []⟩
    ⟨"ping", none, some 1⟩ ⟨"ping", none, some 2⟩ (by decide)

/-- The single payload the facade forwards for a structured command:
guild-scoped when a guild id is set, global otherwise. -/
def payloadFor (command : InteractionCommand) : Payload :=
  match command.guildId with
  | some guildId => .guildPayload guildId command.data command.permissions
  | none => .globalPayload command.data

/-- C6: a rejected registration changes nothing (in particular it forwards
no payload); a successful registration inserts the definition where
dispatch looks it up and forwards exactly one payload for slash and
context-menu commands — guild-scoped when a guild id is set, global
otherwise — and none for buttons and select-menus. -/
theorem register_command_forwarding (cs : ClientState) (d : InteractionCommand) :
    ((registerCommandObject cs d).2 = false → (registerCommandObject cs d).1 = cs) ∧
    ((registerCommandObject cs d).2 = true →
      (registerCommandObject cs d).1.router.commands.lookup d.name = some d ∧
      ((d.kind = CommandKind.slash ∨ d.kind = CommandKind.contextMenu) →
        (registerCommandObject cs d).1.payloads = cs.payloads ++ [payloadFor d]) ∧
      ((d.kind = CommandKind.button ∨ d.kind = CommandKind.selectMenu) →
        (registerCommandObject cs d).1.payloads = cs.payloads)) := by
  unfold registerCommandObject
  cases hl : cs.router.commands.lookup d.name with
  | some v => exact ⟨fun _ => rfl, fun h => Bool.noConfusion h⟩
  | none =>
    cases hc : d.callback with
    | none => exact ⟨fun _ => rfl, fun h => Bool.noConfusion h⟩
    | some cb =>
      cases hk : d.kind with
      | slash =>
        cases hg : d.guildId with
        | some g =>
          refine ⟨fun h => Bool.noConfusion h, fun _ => ⟨?_, ?_, ?_⟩⟩
          · exact lookup_append_not_found _ _ _ hl
          · intro _
            simp [addGuildPayload, payloadFor, hg]
          · intro h
            rcases h with h | h <;> simp at h
        | none =>
          refine ⟨fun h => Bool.noConfusion h, fun _ => ⟨?_, ?_, ?_⟩⟩
          · exact lookup_append_not_found _ _ _ hl
          · intro _
            simp [addGlobalPayload, payloadFor, hg]
          · intro h
            rcases h with h | h <;> simp at h
      | contextMenu =>
        cases hg : d.guildId with
        | some g =>
          refine ⟨fun h => Bool.noConfusion h, fun _ => ⟨?_, ?_, ?_⟩⟩
          · exact lookup_append_not_found _ _ _ hl
          · intro _
            simp [addGuildPayload, payloadFor, hg]
          · intro h
            rcases h with h | h <;> simp at h
        | none =>
          refine ⟨fun h => Bool.noConfusion h, fun _ => ⟨?_, ?_, ?_⟩⟩
          · exact lookup_append_not_found _ _ _ hl
          · intro _
            simp [addGlobalPayload, payloadFor, hg]
          · intro h
            rcases h with h | h <;> simp at h
      | button =>
        refine ⟨fun h => Bool.noConfusion h, fun _ => ⟨?_, ?_, ?_⟩⟩
        · exact lookup_append_not_found _ _ _ hl
        · intro h
          rcases h with h | h <;> simp at h
        · intro _
          rfl
      | selectMenu =>
        refine ⟨fun h => Bool.noConfusion h, fun _ => ⟨?_, ?_, ?_⟩⟩
        · exact lookup_append_not_found _ _ _ hl
        · intro h
          rcases h with h | h <;> simp at h
        · intro _
          rfl

/-- C6 witness: registering a guild-scoped slash command against an empty
state forwards exactly the one guild payload. -/
theorem register_command_forwarding_witness :
    (registerCommandObject ⟨⟨"!", [], []⟩, []⟩
        ⟨"cmd", CommandKind.slash, some "g", 7, none, some 1⟩).1.payloads =
      [] ++ [payloadFor ⟨"cmd", CommandKind.slash, some "g", 7, none, some 1⟩] :=
  ((register_command_forwarding ⟨⟨"!", [], []⟩, []⟩
      ⟨"cmd", CommandKind.slash, some "g", 7, none, some 1⟩).2
    (by decide)).2.1 (Or.inl rfl)

/-- C4 witness: the role `"R"` sits in both lists; the actor holding it is
denied. -/
theorem deny_precedence_witness :
    permissionAllows ⟨false, [], ["R"]⟩ ⟨none, some ["R"], some ["R"]⟩ = false :=
  deny_precedence ⟨false, [], ["R"]⟩ ⟨none, some ["R"], some ["R"]⟩ ["R"] "R"
    (by decide) (by decide) (by decide) (by decide)

/-- C7: splitting `"!greet alice bob"` on spaces and shifting off the first
token yields the command token `"!greet"`, whose marker-stripped remainder
`"greet"` is the registry key, with `["alice", "bob"]` left over; an
allowed invocation hands the callback the original event together with
exactly those leftover tokens. -/
theorem tokenize_and_invoke (mc : List (String × MessageCommand))
    (ic : List (String × InteractionCommand)) (author : Author)
    (commandData : MessageCommand) (cb : Nat)
    (hlook : mc.lookup "greet" = some commandData)
    (hcb : commandData.callback = some cb)
    (hbot : author.isBot = false)
    (hperm : ∀ p, commandData.permissions = some p →
      permissionAllows author p = true) :
    jsSplit "!greet alice bob" = ["!greet", "alice", "bob"] ∧
    jsSubstringFrom "!greet" (jsLength "!") = "greet" ∧
    (handleMessage ⟨"!", mc, ic⟩ ⟨"!greet alice bob", some author⟩).2 =
      some (.invoked cb "!greet alice bob" (some author) ["alice", "bob"]) := by
  refine ⟨by decide, by decide, ?_⟩
  have e1 : jsSplit "!greet alice bob" = ["!greet", "alice", "bob"] := by decide
  have e2 : (!"!greet".data.isEmpty && jsStartsWith "!greet" "!") = true := by
    decide
  have e3 : jsSubstringFrom "!greet" (jsLength "!") = "greet" := by decide
  simp only [handleMessage, e1, e2, e3]
  simp only [if_true, hlook, hbot, hcb, Bool.false_eq_true, if_false]
  cases hp : commandData.permissions with
  | none => rfl
  | some p =>
    have hpa := hperm p hp
    unfold permissionAllows at hpa
    cases hf : flagsMatch author p with
    | true => simp [hf]
    | false =>
      rw [hf] at hpa
      simp only [Bool.false_eq_true, if_false] at hpa
      cases hnn : (p.allowed.isNone && p.denied.isNone) with
      | true => simp [hf, hnn]
      | false =>
        rw [hnn] at hpa
        simp only [Bool.false_eq_true, if_false] at hpa
        cases hd : deniedMatch author p with
        | true => rw [hd] at hpa; simp at hpa
        | false =>
          rw [hd] at hpa
          simp only [Bool.false_eq_true, if_false] at hpa
          cases ha : allowedMatch author p with
          | true => simp [hf, hnn, hd, ha]
          | false => rw [ha] at hpa; simp at hpa

/-- C7 witness: the `"greet"` command registered with callback 5 and no
rule set fires on `"!greet alice bob"` with the leftover tokens. -/
theorem tokenize_and_invoke_witness :
    (handleMessage ⟨"!", [("greet", ⟨"greet", none, some 5⟩)], []⟩
        ⟨"!greet alice bob", some ⟨false, [], []⟩⟩).2 =
      some (.invoked 5 "!greet alice bob" (some ⟨false, [], []⟩)
        ["alice", "bob"]) :=
  (tokenize_and_invoke [("greet", ⟨"greet", none, some 5⟩)] [] ⟨false, [], []⟩
    ⟨"greet", none, some 5⟩ 5 (by decide) (by decide) (by decide)
    (fun _ hp => Option.noConfusion hp)).2.2

/-- C8: a context-menu invocation whose handler is registered with a
callback is dispatched with an absent target whenever resolution yields no
target (guild absent, channel absent, or the id missing from the relevant
cache) — the invocation is not skipped. -/
theorem context_menu_absent_target (s : RouterState) (cmd : InteractionCommand)
    (cb : Nat) (name : String) (guild : Option Guild) (channel : Option Channel)
    (targetType : TargetType) (targetId : String)
    (hlook : s.commands.lookup name = some cmd)
    (hcb : cmd.callback = some cb)
    (hres : resolveTarget guild channel targetType targetId = none) :
    (handleInteraction s
        (.contextMenu name guild channel targetType targetId)).2 =
      Except.ok (some (.contextMenuInvoked cb none)) := by
  simp only [handleInteraction, hlook, hcb, hres]

/-- C8 witness: a user context menu fired outside a guild still reaches
callback 9, with no target. -/
theorem context_menu_absent_target_witness :
    (handleInteraction
        ⟨"!", [], [("Info", ⟨"Info", CommandKind.contextMenu, none, 3, none, some 9⟩)]⟩
        (.contextMenu "Info" none none TargetType.user "42")).2 =
      Except.ok (some (.contextMenuInvoked 9 none)) :=
  context_menu_absent_target
    ⟨"!", [], [("Info", ⟨"Info", CommandKind.contextMenu, none, 3, none, some 9⟩)]⟩
    ⟨"Info", CommandKind.contextMenu, none, 3, none, some 9⟩ 9 "Info"
    none none TargetType.user "42" (by decide) (by decide) (by decide)

/-- C9: `registerEvent` returns false on every call — even when the event
carries a callback and the subscription on the underlying client does
happen — so its boolean result never signals success. -/
theorem register_event_always_false (subs : List Subscription)
    (event : ClientEvent) :
    (registerEvent subs event).2 = false ∧
    (∀ cb, event.callback = some cb →
      (registerEvent subs event).1 = subs ++ [(event.name, event.once, cb)]) := by
  constructor
  · unfold registerEvent
    cases hc : event.callback with
    | none => rfl
    | some cb =>
      cases ho : event.once with
      | true => rfl
      | false => rfl
  · intro cb hc
    unfold registerEvent
    rw [hc]
    cases ho : event.once with
    | true => rfl
    | false => rfl

/-- C9 witness: a once event with callback 4 is subscribed, yet the call
returns false. -/
theorem register_event_always_false_witness :
    (registerEvent [] ⟨"ready", true, some 4⟩).2 = false ∧
    (registerEvent [] ⟨"ready", true, some 4⟩).1 = [("ready", true, 4)] :=
  ⟨(register_event_always_false [] ⟨"ready", true, some 4⟩).1,
   (register_event_always_false [] ⟨"ready", true, some 4⟩).2 4 rfl⟩

/-- C10: routing mutates nothing — dispatching any text-message or
interaction event returns the router state unchanged, while `setPfx` is
the operation that rewrites the configured marker. -/
theorem dispatch_preserves_state (s : RouterState) (m : MessageEvent)
    (i : Interaction) (p : String) :
    (handleMessage s m).1 = s ∧ (handleInteraction s i).1 = s ∧
    setPfx s p = { s with pfx := p } := by
  refine ⟨?_, ?_, rfl⟩
  · unfold handleMessage
    repeat' split
    all_goals rfl
  · unfold handleInteraction
    repeat' split
    all_goals rfl
